import Mathlib

/-! Verification development for the xventory stock-lookup core
(`src/tools/stock.py`, `src/agents/agent.py`).

The embedding models Python dictionaries holding string / int / float
values as association lists over an inductive `Val` type (floats as
rationals), Python exceptions as the error channel of `Except String`,
and the two external dependencies of `VectorProductStockTool` — the
Chroma vector store and the rapidfuzz `WRatio` scorer — as function
fields of the tool structure.  String helpers are implemented over
`String.data` (lists of characters) so that every definition reduces
inside the kernel.  Case folding and whitespace handling follow the
ASCII behaviour of the Python originals.
-/

/-- Python runtime values that occur in product dictionaries:
strings, ints, and floats (modelled as rationals). -/
inductive Val where
  | str (s : String)
  | int (n : Int)
  | float (q : ℚ)
deriving DecidableEq, Repr

/-- A Python dict with string keys, as an association list. -/
abbrev Dict := List (String × Val)

/-- Python `d.get(k)` / `d[k]` lookup: first binding of the key. -/
def dget (d : Dict) (k : String) : Option Val :=
  (d.find? (fun kv => kv.1 = k)).map Prod.snd

/-- Python `d[k] = v`: overwrite an existing binding in place, else append. -/
def dset (d : Dict) (k : String) (v : Val) : Dict :=
  if (d.find? (fun kv => kv.1 = k)).isSome then
    d.map (fun kv => if kv.1 = k then (k, v) else kv)
  else d ++ [(k, v)]

/-- Python `d.update(m)`: assign every binding of `m` into `d`. -/
def dupdate (d : Dict) (m : Dict) : Dict :=
  m.foldl (fun acc kv => dset acc kv.1 kv.2) d

/-- A langchain `Document`: page content plus a metadata dict. -/
structure Document where
  page_content : String
  metadata : Dict
deriving DecidableEq, Repr

/-- Characters stripped by Python `str.strip()`. -/
def isPySpace (c : Char) : Bool :=
  c = ' ' || c = '\t' || c = '\n' || c = '\r' || c = '\x0b' || c = '\x0c'

/-- Python `str.strip()`. -/
def pyStrip (s : String) : String :=
  String.mk (((s.data.dropWhile isPySpace).reverse.dropWhile isPySpace).reverse)

/-- Python `str.lower()` (ASCII case folding). -/
def pyLower (s : String) : String :=
  String.mk (s.data.map Char.toLower)

/-- Split a character list at every occurrence of a separator character. -/
def splitOnChar (c : Char) : List Char → List (List Char)
  | [] => [[]]
  | x :: xs =>
    if x = c then [] :: splitOnChar c xs
    else
      match splitOnChar c xs with
      | [] => [[x]]
      | h :: t => (x :: h) :: t

/-- Python `s.split(c)` for a one-character separator. -/
def strSplit (c : Char) (s : String) : List String :=
  (splitOnChar c s.data).map String.mk

/-- Python `sep.join(parts)`. -/
def joinSep (sep : String) : List String → String
  | [] => ""
  | [x] => x
  | x :: y :: xs => x ++ sep ++ joinSep sep (y :: xs)

/-- Python `s.replace(' ', '_')`. -/
def replaceSpaceUnderscore (s : String) : String :=
  String.mk (s.data.map (fun ch => if ch = ' ' then '_' else ch))

/-- Python `s[:n]` on a string. -/
def strTake (n : Nat) (s : String) : String :=
  String.mk (s.data.take n)

/-- Value of a list of decimal digit characters. -/
def digitsVal (l : List Char) : Nat :=
  l.foldl (fun a c => a * 10 + (c.toNat - 48)) 0

/-- Parse the plain decimal forms accepted by Python `float(str)`
(optional sign, digits, optional fractional part; surrounding
whitespace stripped).  Scientific notation is not modelled. -/
def parseDecimal (s : String) : Option ℚ :=
  let t := pyStrip s
  let (neg, u) :=
    match t.data with
    | '-' :: rest => (true, rest)
    | '+' :: rest => (false, rest)
    | l => (false, l)
  let mk : ℚ → Option ℚ := fun q => some (if neg then -q else q)
  match splitOnChar '.' u with
  | [a] =>
    if a.length ≠ 0 ∧ a.all Char.isDigit then mk (digitsVal a) else none
  | [a, b] =>
    if (a.length + b.length ≠ 0) ∧ a.all Char.isDigit ∧ b.all Char.isDigit then
      mk ((digitsVal a : ℚ) + (digitsVal b : ℚ) / (10 : ℚ) ^ b.length)
    else none
  | _ => none

/-- Python `int(q)` on a float: truncation toward zero. -/
def truncQ (q : ℚ) : Int := q.num / (q.den : Int)

/-- Left-pad a string with a character up to a given length. -/
def padLeft (s : String) (c : Char) (n : Nat) : String :=
  String.mk (List.replicate (n - s.length) c) ++ s

/-- Render a rational as Python renders a float with a short decimal
expansion (used only for display). -/
def floatStr (q : ℚ) : String :=
  match (List.range 18).find? (fun k => (q * (10 : ℚ) ^ k).den = 1) with
  | some 0 => toString q.num ++ ".0"
  | some k =>
    let n := (q * (10 : ℚ) ^ k).num.natAbs
    let sgn := if q < 0 then "-" else ""
    sgn ++ toString (n / 10 ^ k) ++ "." ++ padLeft (toString (n % 10 ^ k)) '0' k
  | none => toString q

/-- Python `str(v)` for the values we model. -/
def pyStr : Val → String
  | .str s => s
  | .int n => toString n
  | .float q => floatStr q

/-- Python truthiness of a value. -/
def pyTruthy : Val → Bool
  | .str s => s ≠ ""
  | .int n => n ≠ 0
  | .float q => q ≠ 0

/-- Python `float(v)`: ints and floats convert, strings are parsed,
anything unparsable raises `ValueError`. -/
def pyFloat : Val → Except String ℚ
  | .int n => .ok (n : ℚ)
  | .float q => .ok q
  | .str s =>
    match parseDecimal s with
    | some q => .ok q
    | none => .error ("ValueError: could not convert string to float: " ++ s)

/-- Python `a <= b`: numeric pairs compare numerically, strings compare
lexicographically, mixed string/number comparison raises `TypeError`. -/
def pyLe : Val → Val → Except String Bool
  | .int a, .int b => .ok (decide (a ≤ b))
  | .int a, .float b => .ok (decide ((a : ℚ) ≤ b))
  | .float a, .int b => .ok (decide (a ≤ (b : ℚ)))
  | .float a, .float b => .ok (decide (a ≤ b))
  | .str a, .str b => .ok (!(decide (b < a)))
  | _, _ => .error "TypeError: unorderable str and numeric operands"

/-- Python `a + b` for the sum over quantities: numeric pairs add,
anything involving a string raises `TypeError`. -/
def pyAdd : Val → Val → Except String Val
  | .int a, .int b => .ok (.int (a + b))
  | .int a, .float b => .ok (.float ((a : ℚ) + b))
  | .float a, .int b => .ok (.float (a + (b : ℚ)))
  | .float a, .float b => .ok (.float (a + b))
  | _, _ => .error "TypeError: unsupported operand types for +"

/-- Python `sum(...)` with integer start value 0. -/
def pySum (l : List Val) : Except String Val :=
  l.foldlM pyAdd (.int 0)

/-- Python `==` between a value and another value (numeric cross-type
equality holds, number/string equality is false). -/
def pyEqVal : Val → Val → Bool
  | .str a, .str b => a = b
  | .int a, .int b => a = b
  | .float a, .float b => a = b
  | .int a, .float b => decide ((a : ℚ) = b)
  | .float a, .int b => decide (a = (b : ℚ))
  | _, _ => false

/-- Python `d.get(k) == v` where a missing key gives `None` (never equal
to a string). -/
def pyEqO : Option Val → Val → Bool
  | some v, w => pyEqVal v w
  | none, _ => false

/-- Python `v[:100]` slicing: defined on strings, raises `TypeError` on
numbers. -/
def pySlice100 : Val → Except String String
  | .str s => .ok (strTake 100 s)
  | .int _ => .error "TypeError: int object is not subscriptable"
  | .float _ => .error "TypeError: float object is not subscriptable"

/-- Normalization applied by `_run` (stock.py line 98):
`query.strip().lower()`. -/
def normalizeQuery (q : String) : String := pyLower (pyStrip q)

/-- Threshold constant `_FUZZ_THRESHOLD` (stock.py line 10). -/
def _FUZZ_THRESHOLD : ℚ := 70

/-- Similarity constant `_SIM_THRESHOLD` (stock.py line 9); the source
never reads it. -/
def _SIM_THRESHOLD : ℚ := 22 / 100

/-- The tool's state: the two external dependencies (Chroma
`similarity_search_with_score` and the rapidfuzz `WRatio` scorer) as
functions, plus the three lexical index lists built in `__init__`
from the `name`, `sku` and `description` columns. -/
structure VectorProductStockTool where
  similarity_search_with_score : String → Nat → Except String (List (Document × ℚ))
  wratio : String → String → ℚ
  name_index : List String
  sku_index : List String
  desc_index : List String

/-- Embeds `_semantic_lookup` (stock.py lines 64-69): a similarity
search with fan-out `k = 4`, keeping only the documents. -/
def semantic_lookup (tool : VectorProductStockTool) (query : String) :
    Except String (List Document) := do
  let res ← tool.similarity_search_with_score query 4
  pure (res.map Prod.fst)

/-- Behaviour of rapidfuzz `process.extractOne`: the best-scoring choice
together with its score and index; on ties the first occurrence wins;
`none` on an empty choice list. -/
def extractOne (scorer : String → String → ℚ) (query : String) :
    List String → Option (String × ℚ × Nat)
  | [] => none
  | c :: rest =>
    match extractOne scorer query rest with
    | none => some (c, scorer query c, 0)
    | some (h, s, i) =>
      if scorer query c < s then some (h, s, i + 1)
      else some (c, scorer query c, 0)

/-- One `_check(choices)` call inside `_fuzzy_lookup` (stock.py lines
76-80): update the running best when the new score is strictly
greater.  Unpacking the `None` returned by `extractOne` on an empty
choice list raises `TypeError`. -/
def checkStep (scorer : String → String → ℚ) (query : String)
    (acc : ℚ × Option (String × Nat)) (choices : List String) :
    Except String (ℚ × Option (String × Nat)) :=
  match extractOne scorer query choices with
  | none => .error "TypeError: cannot unpack non-iterable NoneType object"
  | some (hit, score, idx) =>
    .ok (if acc.1 < score then (score, some (hit, idx)) else acc)

/-- The selection phase of `_fuzzy_lookup` (stock.py lines 72-84): run
`_check` over the name, SKU and description index lists in that order,
starting from best score 0 and no best hit. -/
def fuzzy_select (scorer : String → String → ℚ) (query : String)
    (nameIdx skuIdx descIdx : List String) :
    Except String (ℚ × Option (String × Nat)) := do
  let a ← checkStep scorer query (0, none) nameIdx
  let b ← checkStep scorer query a skuIdx
  checkStep scorer query b descIdx

/-- Embeds `_fuzzy_lookup` (stock.py lines 71-94).  Below the threshold
the empty list is returned; at or above it the source evaluates
`self.df.iloc[best_row]`, but the tool has no attribute `df` (its
pydantic fields are `vectorstore` and `csv_data`), so an
`AttributeError` is raised. -/
def fuzzy_lookup (tool : VectorProductStockTool) (query : String) :
    Except String (List Document) := do
  let r ← fuzzy_select tool.wratio query tool.name_index tool.sku_index tool.desc_index
  if r.1 < _FUZZ_THRESHOLD then pure []
  else
    Except.error "AttributeError: VectorProductStockTool object has no attribute df"

/-- Coercion applied by `_parse_product_content` to integer-like fields
(stock.py lines 147-153): `int(float(value))` guarded by truthiness and
the `nan`/`n/a` tokens, any failure giving 0. -/
def coerceInt (value : String) : Int :=
  if value = "" ∨ pyLower value = "nan" ∨ pyLower value = "n/a" then 0
  else
    match parseDecimal value with
    | some q => truncQ q
    | none => 0

/-- Coercion applied by `_parse_product_content` to float-like fields
(stock.py lines 154-159). -/
def coerceFloat (value : String) : ℚ :=
  if value = "" ∨ pyLower value = "nan" ∨ pyLower value = "n/a" then 0
  else
    match parseDecimal value with
    | some q => q
    | none => 0

/-- One iteration of the line loop in `_parse_product_content` (stock.py
lines 141-161): split at the first colon, normalize the key, coerce the
value according to the key class. -/
def parseLine (acc : Dict) (line : String) : Dict :=
  match strSplit ':' line with
  | [] => acc
  | [_] => acc
  | k :: rest =>
    let key := replaceSpaceUnderscore (pyLower (pyStrip k))
    let value := pyStrip (joinSep ":" rest)
    if key = "quantity" ∨ key = "low_stock_threshold" ∨ key = "lead_time" ∨
        key = "category_id" then
      dset acc key (.int (coerceInt value))
    else if key = "price" ∨ key = "cost" ∨ key = "compare_at_price" ∨
        key = "weight" then
      dset acc key (.float (coerceFloat value))
    else
      dset acc key
        (.str (if pyLower value = "nan" ∨ pyLower value = "n/a" then "" else value))

/-- Embeds `_parse_product_content` (stock.py lines 136-169): parse the
`Label: value` lines of the page content, then overlay the metadata
when it is non-empty. -/
def parse_product_content (content : String) (metadata : Dict) : Dict :=
  let pd := (strSplit '\n' (pyStrip content)).foldl parseLine []
  if metadata.isEmpty then pd else dupdate pd metadata

/-- Parsed dictionary of one candidate document. -/
def parsedOf (d : Document) : Dict :=
  parse_product_content d.page_content d.metadata

/-- Loop of `_extract_product_info` (stock.py lines 123-132) with the
`seen_skus` set carried explicitly: keep a candidate when its parsed
dict is non-empty and its `sku` value is unseen. -/
def extractAux : List Document → List (Option Val) → List Dict
  | [], _ => []
  | d :: rest, seen =>
    let pd := parsedOf d
    if pd ≠ [] ∧ dget pd "sku" ∉ seen then
      pd :: extractAux rest (dget pd "sku" :: seen)
    else extractAux rest seen

/-- Embeds `_extract_product_info` (stock.py lines 119-134). -/
def extract_product_info (docs : List Document) : List Dict :=
  extractAux docs []

/-- Always-rendered lines of one product block in
`_format_stock_results` (stock.py lines 192-204): identification,
stock level, status, and the truthiness-guarded threshold line. -/
def infoLines (p : Dict) : String :=
  "Product: " ++ pyStr ((dget p "name").getD (Val.str "N/A")) ++ "\n"
  ++ "SKU: " ++ pyStr ((dget p "sku").getD (Val.str "N/A")) ++ "\n"
  ++ "Brand: " ++ pyStr ((dget p "brand").getD (Val.str "N/A")) ++ "\n"
  ++ "Current Stock: " ++ pyStr ((dget p "quantity").getD (Val.int 0)) ++ " units\n"
  ++ "Stock Status: " ++ pyStr ((dget p "stock_status").getD (Val.str "unknown")) ++ "\n"
  ++ (if pyTruthy ((dget p "low_stock_threshold").getD (Val.int 10)) then
        "Low Stock Threshold: "
          ++ pyStr ((dget p "low_stock_threshold").getD (Val.int 10)) ++ " units\n"
      else "")

/-- Price line (stock.py lines 206-208): rendered only when the price is
truthy; `float(price)` may raise. -/
def priceLine (p : Dict) : Except String String :=
  let price := (dget p "price").getD (Val.int 0)
  if pyTruthy price then do
    let f ← pyFloat price
    Except.ok ("Price: $" ++ padLeft (toString (Rat.floor (f * 100 + 1 / 2) / 100)) '0' 1
      ++ "." ++ padLeft (toString ((Rat.floor (f * 100 + 1 / 2)).natAbs % 100)) '0' 2 ++ "\n")
  else Except.ok ""

/-- Supplier SKU line (stock.py lines 210-212). -/
def supplierLine (p : Dict) : String :=
  let v := (dget p "supplier_sku").getD (Val.str "")
  if pyTruthy v then "Supplier SKU: " ++ pyStr v ++ "\n" else ""

/-- Lead time line (stock.py lines 214-216). -/
def leadLine (p : Dict) : String :=
  let v := (dget p "lead_time").getD (Val.str "")
  if pyTruthy v then "Lead Time: " ++ pyStr v ++ " days\n" else ""

/-- Short description line (stock.py lines 218-220): first 100
characters followed by an ellipsis; slicing may raise. -/
def descLine (p : Dict) : Except String String :=
  let v := (dget p "short_description").getD (Val.str "")
  if pyTruthy v then do
    let s ← pySlice100 v
    Except.ok ("Description: " ++ s ++ "...\n")
  else Except.ok ""

/-- Separator appended after each product block (stock.py line 222). -/
def sepLine : String := "\n" ++ String.mk (List.replicate 30 '-') ++ "\n\n"

/-- One product block of `_format_stock_results` (the body of the loop
at stock.py lines 191-222). -/
def renderProduct (p : Dict) : Except String String := do
  let pl ← priceLine p
  let dl ← descLine p
  Except.ok (infoLines p ++ pl ++ supplierLine p ++ leadLine p ++ dl ++ sepLine)

/-- Render every product block left to right, propagating the first
failure (as the `result +=` loop does under `_run`'s `try`). -/
def renderAll : List Dict → Except String (List String)
  | [] => .ok []
  | p :: ps => do
    let s ← renderProduct p
    let rest ← renderAll ps
    pure (s :: rest)

/-- Header of the listing output (stock.py lines 188-189). -/
def listingHeader (query : String) : String :=
  "Stock Information for '" ++ query ++ "':\n"
    ++ String.mk (List.replicate 50 '=') ++ "\n\n"

/-- Total of `p.get('quantity', 0)` over the products, as the integer it
evaluates to when every quantity is an int (stock.py line 225). -/
def qtySum (ps : List Dict) : Int :=
  ps.foldl
    (fun a p =>
      a + (match (dget p "quantity").getD (Val.int 0) with
           | .int n => n
           | _ => 0)) 0

/-- Count of products whose `stock_status` equals `"low_stock"`
(stock.py line 226). -/
def lowCount (ps : List Dict) : Nat :=
  ps.countP (fun p => pyEqO (dget p "stock_status") (Val.str "low_stock"))

/-- Count of products whose `stock_status` equals `"out_of_stock"`
(stock.py line 227). -/
def outCount (ps : List Dict) : Nat :=
  ps.countP (fun p => pyEqO (dget p "stock_status") (Val.str "out_of_stock"))

/-- Summary block appended when more than one product is listed
(stock.py lines 224-233). -/
def summary_block (ps : List Dict) : Except String String := do
  let total ← pySum (ps.map (fun p => (dget p "quantity").getD (Val.int 0)))
  Except.ok ("SUMMARY:\n"
    ++ "Total Products Found: " ++ toString ps.length ++ "\n"
    ++ "Total Stock: " ++ pyStr total ++ " units\n"
    ++ "Low Stock Items: " ++ toString (lowCount ps) ++ "\n"
    ++ "Out of Stock Items: " ++ toString (outCount ps) ++ "\n")

/-- Embeds `_format_stock_results` (stock.py lines 184-235). -/
def format_stock_results (products : List Dict) (query : String) :
    Except String String :=
  if products.isEmpty then .ok ("No products found for '" ++ query ++ "'")
  else do
    let sections ← renderAll products
    let body := sections.foldl (fun a s => a ++ s) (listingHeader query)
    if 1 < products.length then do
      let summ ← summary_block products
      pure (body ++ summ)
    else pure body

/-- The fixed no-match message (stock.py lines 49 and 105). -/
def noMatchMsg (q : String) : String :=
  "No products found matching '" ++ q ++ "'. Please check the product name or SKU."

/-- Body of `_run` inside its `try` (stock.py lines 98-108), applied to
the already-normalized query. -/
def runBody (tool : VectorProductStockTool) (q : String) :
    Except String String := do
  let docs ← semantic_lookup tool q
  let docs ← if docs.isEmpty then fuzzy_lookup tool q else pure docs
  if docs.isEmpty then pure (noMatchMsg q)
  else format_stock_results (extract_product_info docs) q

/-- Embeds `_run` (stock.py lines 96-110): normalize the query, run the
cascade, and convert any raised exception into the
`"Error checking stock: ..."` string. -/
def _run (tool : VectorProductStockTool) (query : String) : String :=
  match runBody tool (normalizeQuery query) with
  | .ok s => s
  | .error e => "Error checking stock: " ++ e

/-- Embeds `__call__` (stock.py lines 43-61): single-best-answer mode.
The query is used as given (no strip/lower), the best document's
metadata is read with direct subscripts (raising `KeyError` when a key
is missing), and exceptions propagate to the caller. -/
def __call__ (tool : VectorProductStockTool) (query : String) :
    Except String String := do
  let docs ← semantic_lookup tool query
  let docs ← if docs.isEmpty then fuzzy_lookup tool query else pure docs
  match docs with
  | [] => pure (noMatchMsg query)
  | best :: _ =>
    let m := best.metadata
    let qty ← match dget m "quantity" with
      | some v => Except.ok v
      | none => Except.error "KeyError: quantity"
    let low ← pyLe qty ((dget m "low_stock_threshold").getD (Val.int 10))
    let nm ← match dget m "name" with
      | some v => Except.ok v
      | none => Except.error "KeyError: name"
    let sku ← match dget m "sku" with
      | some v => Except.ok v
      | none => Except.error "KeyError: sku"
    let price ← match dget m "price" with
      | some v => Except.ok v
      | none => Except.error "KeyError: price"
    let curr := (dget m "currency").getD (Val.str "USD")
    Except.ok ("**" ++ pyStr nm ++ "**\n"
      ++ "SKU `" ++ pyStr sku ++ "` • Qty: **" ++ pyStr qty ++ "** ("
      ++ (if low then "LOW STOCK ⚠️" else "in stock") ++ ")\n"
      ++ "Price: " ++ pyStr price ++ " " ++ pyStr curr)

/-- One catalog row, with every column optional (agent.py reads each
with `row.get(col, default)`). -/
structure Row where
  id : Option Val := none
  name : Option Val := none
  sku : Option Val := none
  brand : Option Val := none
  description : Option Val := none
  short_description : Option Val := none
  category_id : Option Val := none
  quantity : Option Val := none
  stock_status : Option Val := none
  low_stock_threshold : Option Val := none
  price : Option Val := none
  cost : Option Val := none
  currency : Option Val := none
  material : Option Val := none
  model : Option Val := none
  colors : Option Val := none
  sizes : Option Val := none
  weight : Option Val := none
  supplier_id : Option Val := none
  supplier_sku : Option Val := none
  lead_time : Option Val := none
  seo_title : Option Val := none
  tags : Option Val := none
  barcode : Option Val := none

/-- Restatement of `Option.getD` as a plain definition (the inlined
library version makes the compiler blow up on the long field lists
below). -/
def getDv : Option Val → Val → Val
  | some v, _ => v
  | none, d => d

/-- Labelled field values rendered into the page content by
`create_product_documents` (agent.py lines 15-38), with the `row.get`
defaults of the source. -/
def rowFields (r : Row) : List (String × Val) := [
    ("Name: ", getDv r.name (Val.str "N/A")),
    ("SKU: ", getDv r.sku (Val.str "N/A")),
    ("Brand: ", getDv r.brand (Val.str "N/A")),
    ("Description: ", getDv r.description (Val.str "N/A")),
    ("Short Description: ", getDv r.short_description (Val.str "N/A")),
    ("Category ID: ", getDv r.category_id (Val.str "N/A")),
    ("Quantity: ", getDv r.quantity (Val.int 0)),
    ("Stock Status: ", getDv r.stock_status (Val.str "unknown")),
    ("Low Stock Threshold: ", getDv r.low_stock_threshold (Val.int 10)),
    ("Price: ", getDv r.price (Val.int 0)),
    ("Cost: ", getDv r.cost (Val.int 0)),
    ("Currency: ", getDv r.currency (Val.str "USD")),
    ("Material: ", getDv r.material (Val.str "N/A")),
    ("Model: ", getDv r.model (Val.str "N/A")),
    ("Colors: ", getDv r.colors (Val.str "N/A")),
    ("Sizes: ", getDv r.sizes (Val.str "N/A")),
    ("Weight: ", getDv r.weight (Val.str "N/A")),
    ("Supplier ID: ", getDv r.supplier_id (Val.str "N/A")),
    ("Supplier SKU: ", getDv r.supplier_sku (Val.str "N/A")),
    ("Lead Time: ", getDv r.lead_time (Val.str "N/A")),
    ("SEO Title: ", getDv r.seo_title (Val.str "N/A")),
    ("Tags: ", getDv r.tags (Val.str "N/A")),
    ("Barcode: ", getDv r.barcode (Val.str "N/A"))]

/-- Document built for one row by `create_product_documents` (agent.py
lines 14-56): the labelled text representation as page content, and the
nine-field metadata dict — which does not include
`low_stock_threshold`. -/
def product_document (idx : Nat) (r : Row) : Document :=
  let content := joinSep "\n" ((rowFields r).map (fun lv => lv.1 ++ pyStr lv.2))
  let metadata : Dict := [
    ("product_id", getDv r.id (Val.int idx)),
    ("sku", getDv r.sku (Val.str "")),
    ("name", getDv r.name (Val.str "")),
    ("brand", getDv r.brand (Val.str "")),
    ("category_id", getDv r.category_id (Val.str "")),
    ("stock_status", getDv r.stock_status (Val.str "")),
    ("quantity", getDv r.quantity (Val.int 0)),
    ("price", getDv r.price (Val.int 0)),
    ("row_index", Val.int idx)]
  ⟨content, metadata⟩

/-- Embeds `create_product_documents` (agent.py lines 11-58). -/
def create_product_documents (rows : List Row) : List Document :=
  rows.enum.map (fun p => product_document p.1 p.2)

/-! Concrete tools and records used by witnesses and counterexamples. -/

/-- A tool whose semantic search finds nothing and whose scorer gives
every candidate score 0. -/
def stEmptyFuzz : VectorProductStockTool :=
  ⟨fun _ _ => Except.ok [], fun _ _ => 0, ["a"], ["b"], ["c"]⟩

/-- A tool whose semantic search raises. -/
def stBoom : VectorProductStockTool :=
  ⟨fun _ _ => Except.error "boom", fun _ _ => 0, ["a"], ["b"], ["c"]⟩

/-- Scorer giving the name-index entry `widget` score 69. -/
def scr69 : String → String → ℚ := fun _ c => if c = "widget" then 69 else 0

/-- Scorer giving the name-index entry `widget` score 70. -/
def scr70 : String → String → ℚ := fun _ c => if c = "widget" then 70 else 0

/-- Tool whose best fuzzy score is 69 and whose semantic search finds
nothing. -/
def st69 : VectorProductStockTool :=
  ⟨fun _ _ => Except.ok [], scr69, ["widget"], ["w1"], ["d"]⟩

/-- Tool whose best fuzzy score is 70 and whose semantic search finds
nothing. -/
def st70 : VectorProductStockTool :=
  ⟨fun _ _ => Except.ok [], scr70, ["widget"], ["w1"], ["d"]⟩

/-- A catalog row whose own low-stock threshold (20) exceeds its
quantity (15). -/
def rowG : Row :=
  { name := some (Val.str "Gadget")
    sku := some (Val.str "G1")
    quantity := some (Val.int 15)
    low_stock_threshold := some (Val.int 20)
    price := some (Val.int 5) }

/-- The vector-store document built from `rowG`. -/
def docG : Document := (create_product_documents [rowG]).headD ⟨"", []⟩

/-- Tool whose semantic search returns the `rowG` document. -/
def stG : VectorProductStockTool :=
  ⟨fun _ _ => Except.ok [(docG, 0)], fun _ _ => 0, ["a"], ["b"], ["c"]⟩

/-- Metadata with quantity 5 and threshold 10. -/
def m5 : Dict := [("quantity", Val.int 5), ("low_stock_threshold", Val.int 10),
  ("name", Val.str "Pen"), ("sku", Val.str "P1"), ("price", Val.int 3)]

/-- Metadata with quantity 15 and threshold 10. -/
def m15 : Dict := [("quantity", Val.int 15), ("low_stock_threshold", Val.int 10),
  ("name", Val.str "Pen"), ("sku", Val.str "P1"), ("price", Val.int 3)]

/-- Tool returning the quantity-5 metadata document. -/
def st5 : VectorProductStockTool :=
  ⟨fun _ _ => Except.ok [(⟨"", m5⟩, 0)], fun _ _ => 0, ["a"], ["b"], ["c"]⟩

/-- Tool returning the quantity-15 metadata document. -/
def st15 : VectorProductStockTool :=
  ⟨fun _ _ => Except.ok [(⟨"", m15⟩, 0)], fun _ _ => 0, ["a"], ["b"], ["c"]⟩

/-- Three products with quantities 5, 0, 20 and statuses low_stock,
out_of_stock, in_stock. -/
def c8ps : List Dict := [
  [("quantity", Val.int 5), ("stock_status", Val.str "low_stock")],
  [("quantity", Val.int 0), ("stock_status", Val.str "out_of_stock")],
  [("quantity", Val.int 20), ("stock_status", Val.str "in_stock")]]

/-- A plain document with sku, name and quantity metadata. -/
def docA : Document :=
  ⟨"", [("sku", Val.str "A1"), ("name", Val.str "Alpha"), ("quantity", Val.int 2)]⟩

/-- Tool whose semantic search returns `docA` only when asked with
fan-out 10. -/
def stK10 : VectorProductStockTool :=
  ⟨fun _ k => if k = 10 then Except.ok [(docA, 0)] else Except.ok [],
   fun _ _ => 0, ["a"], ["b"], ["c"]⟩

/-- Tool whose semantic search returns `docA` only when asked with
fan-out 4. -/
def stK4 : VectorProductStockTool :=
  ⟨fun _ k => if k = 4 then Except.ok [(docA, 0)] else Except.ok [],
   fun _ _ => 0, ["a"], ["b"], ["c"]⟩

/-- Tool whose best document has empty metadata. -/
def stEmptyMeta : VectorProductStockTool :=
  ⟨fun _ _ => Except.ok [(⟨"", []⟩, 0)], fun _ _ => 0, ["a"], ["b"], ["c"]⟩

/-- Scorer attaining the maximum 80 both in the name list (`aa`) and
the SKU list (`bb`). -/
def scr9 : String → String → ℚ :=
  fun _ c => if c = "aa" then 80 else if c = "bb" then 80 else 10

/-- Values accepted by Python numeric addition (everything but a
string). -/
def valIsNum : Val → Bool
  | .str _ => false
  | _ => true

/-- Sufficient typing condition under which listing-mode formatting
cannot raise: the price is absent or numeric, the short description is
absent or a string, and the quantity is absent or numeric. -/
def typedFields (p : Dict) : Bool :=
  (match dget p "price" with
   | some (Val.str _) => false
   | _ => true)
  && (match dget p "short_description" with
      | some (Val.int _) => false
      | some (Val.float _) => false
      | _ => true)
  && (match dget p "quantity" with
      | some (Val.str _) => false
      | _ => true)

/-! Helper lemmas. -/

theorem ebind_ok {α β : Type} (a : α) (f : α → Except String β) :
    (Except.ok a >>= f) = f a := rfl

theorem ebind_error {α β : Type} (e : String) (f : α → Except String β) :
    ((Except.error e : Except String α) >>= f) = Except.error e := rfl

theorem epure {α : Type} (a : α) : (pure a : Except String α) = Except.ok a := rfl

/-- When both the semantic search and the fuzzy fallback produce the
empty candidate list at the normalized query, `_run` returns the fixed
no-match message built from the normalized query. -/
theorem run_no_match (tool : VectorProductStockTool) (q : String)
    (hsem : tool.similarity_search_with_score (normalizeQuery q) 4 = Except.ok [])
    (hfuz : fuzzy_lookup tool (normalizeQuery q) = Except.ok []) :
    _run tool q = noMatchMsg (normalizeQuery q) := by
  unfold _run runBody semantic_lookup
  rw [hsem, hfuz]
  rfl

/-! Claim C1 (corrected): the no-match message contains the query after
trimming and lowercasing, not merely after trimming. -/

/-- C1 counterexample: for the query `" XYZ "`, with both retrieval
paths empty, `_run` produces the message quoting `'xyz'` — not the
merely-trimmed `'XYZ'` that the claim specifies. -/
theorem c1_counterexample :
    _run stEmptyFuzz " XYZ "
      = "No products found matching 'xyz'. Please check the product name or SKU."
    ∧ _run stEmptyFuzz " XYZ "
      ≠ "No products found matching 'XYZ'. Please check the product name or SKU." := by
  exact ⟨rfl, by decide⟩

/-- C1 (amended): whenever semantic search and the fuzzy fallback both
yield zero documents for the normalized query, `_run` returns exactly
the fixed no-match message containing the query after trimming AND
lowercasing, as a normal return value. -/
theorem c1_no_match_message (tool : VectorProductStockTool) (q : String)
    (hsem : tool.similarity_search_with_score (normalizeQuery q) 4 = Except.ok [])
    (hfuz : fuzzy_lookup tool (normalizeQuery q) = Except.ok []) :
    _run tool q = "No products found matching '" ++ normalizeQuery q
      ++ "'. Please check the product name or SKU." :=
  run_no_match tool q hsem hfuz

/-- C1 witness: the amended theorem applied to a concrete tool and the
query `"  Pens  "`. -/
theorem c1_witness :
    _run stEmptyFuzz "  Pens  "
      = "No products found matching 'pens'. Please check the product name or SKU." := by
  exact c1_no_match_message stEmptyFuzz "  Pens  " rfl rfl

/-! Claim C2 (code bug): the threshold test is inclusive as claimed, but
a best fuzzy score of 70 does not return the matched record — it hits
the undefined `self.df` attribute and raises. -/

/-- C2: with best fuzzy score 69 the fallback yields no match and `_run`
reports the no-match message; with best fuzzy score 70 the threshold
accepts, but the lookup evaluates the nonexistent `self.df` attribute,
so the fallback raises `AttributeError` and `_run` returns an error
string instead of the matched record. -/
theorem c2_threshold_bug :
    fuzzy_lookup st69 "widgett" = Except.ok []
    ∧ _run st69 "widgett"
      = "No products found matching 'widgett'. Please check the product name or SKU."
    ∧ fuzzy_lookup st70 "widgett"
      = Except.error "AttributeError: VectorProductStockTool object has no attribute df"
    ∧ _run st70 "widgett"
      = "Error checking stock: AttributeError: VectorProductStockTool object has no attribute df" := by
  exact ⟨rfl, rfl, rfl, rfl⟩

/-! Claim C3 (confirmed): `_run` absorbs every failure. -/

/-- C3: every `_run` outcome is one of three strings — an
`"Error checking stock: ..."` conversion of a raised exception, the
fixed no-match message, or a successfully formatted result; no raw
exception reaches the caller. -/
theorem c3_errors_absorbed (tool : VectorProductStockTool) (q : String) :
    (∃ e, _run tool q = "Error checking stock: " ++ e)
    ∨ _run tool q = noMatchMsg (normalizeQuery q)
    ∨ ∃ ps, format_stock_results ps (normalizeQuery q) = Except.ok (_run tool q) := by
  unfold _run runBody
  cases hs : semantic_lookup tool (normalizeQuery q) with
  | error e => exact Or.inl ⟨e, rfl⟩
  | ok docs =>
    simp only [ebind_ok]
    cases docs with
    | nil =>
      rw [if_pos (show ([] : List Document).isEmpty = true from rfl)]
      cases hf : fuzzy_lookup tool (normalizeQuery q) with
      | error e => exact Or.inl ⟨e, rfl⟩
      | ok fdocs =>
        simp only [ebind_ok]
        cases fdocs with
        | nil => exact Or.inr (Or.inl rfl)
        | cons f fs =>
          rw [if_neg (show ¬((f :: fs).isEmpty = true) from fun hh => Bool.noConfusion hh)]
          cases hfmt : format_stock_results (extract_product_info (f :: fs)) (normalizeQuery q) with
          | error e => exact Or.inl ⟨e, rfl⟩
          | ok s => exact Or.inr (Or.inr ⟨extract_product_info (f :: fs), by rw [hfmt]⟩)
    | cons d ds =>
      rw [if_neg (show ¬((d :: ds).isEmpty = true) from fun hh => Bool.noConfusion hh)]
      simp only [epure, ebind_ok]
      rw [if_neg (show ¬((d :: ds).isEmpty = true) from fun hh => Bool.noConfusion hh)]
      cases hfmt : format_stock_results (extract_product_info (d :: ds)) (normalizeQuery q) with
      | error e => exact Or.inl ⟨e, rfl⟩
      | ok s => exact Or.inr (Or.inr ⟨extract_product_info (d :: ds), by rw [hfmt]⟩)

/-! Claim C6 (corrected): the facade performs no emptiness validation. -/

/-- C6 counterexample: the all-whitespace query `"   "` is not rejected
at the facade — it is delegated to the semantic engine (whose failure
surfaces as the error string) and, when both paths are empty, produces
the ordinary no-match message for the empty normalized query. -/
theorem c6_counterexample :
    _run stBoom "   " = "Error checking stock: boom"
    ∧ _run stEmptyFuzz "   "
      = "No products found matching ''. Please check the product name or SKU." := by
  exact ⟨rfl, rfl⟩

/-- C6 (amended): `_run` validates nothing — a query that trims to the
empty string is normalized to `""` and processed exactly like the empty
query, reaching semantic search and, when both paths are empty, the
regular no-match message. -/
theorem c6_no_validation (tool : VectorProductStockTool) (q : String)
    (h : pyStrip q = "") :
    _run tool q = _run tool ""
    ∧ (tool.similarity_search_with_score "" 4 = Except.ok [] →
        fuzzy_lookup tool "" = Except.ok [] →
        _run tool q = noMatchMsg "") := by
  have hnq : normalizeQuery q = "" := by rw [normalizeQuery, h]; rfl
  constructor
  · unfold _run
    rw [hnq, show normalizeQuery "" = "" from rfl]
  · intro h1 h2
    have hr := run_no_match tool q (by rw [hnq]; exact h1) (by rw [hnq]; exact h2)
    rw [hnq] at hr
    exact hr

/-- C6 witness: the amended theorem applied to a concrete tool and the
query `" "`. -/
theorem c6_witness :
    _run stEmptyFuzz " " = _run stEmptyFuzz ""
    ∧ _run stEmptyFuzz " " = noMatchMsg "" := by
  refine ⟨(c6_no_validation stEmptyFuzz " " rfl).1, ?_⟩
  exact (c6_no_validation stEmptyFuzz " " rfl).2 rfl rfl

/-! Claim C7 (corrected): listing mode also issues the semantic search
with fan-out 4; the fan-out 10 exists only on the unused
`_vector_search` helper. -/

/-- C7 counterexample: a semantic engine that returns a document only
for fan-out 10 is never hit by the listing-mode `_run` (the result is
the no-match message), while one that returns it for fan-out 4 is. -/
theorem c7_counterexample :
    _run stK10 "alpha"
      = "No products found matching 'alpha'. Please check the product name or SKU."
    ∧ _run stK4 "alpha"
      ≠ "No products found matching 'alpha'. Please check the product name or SKU." := by
  exact ⟨rfl, by decide⟩

/-- C7 (amended): both the listing-mode `_run` and the single-best
`__call__` depend on the vector store only through queries at fan-out
`k = 4`. -/
theorem c7_fanout_k4 (s1 s2 : String → Nat → Except String (List (Document × ℚ)))
    (sc : String → String → ℚ) (nI sI dI : List String)
    (h : ∀ t, s1 t 4 = s2 t 4) (q : String) :
    _run ⟨s1, sc, nI, sI, dI⟩ q = _run ⟨s2, sc, nI, sI, dI⟩ q
    ∧ __call__ ⟨s1, sc, nI, sI, dI⟩ q = __call__ ⟨s2, sc, nI, sI, dI⟩ q := by
  have hsem : semantic_lookup ⟨s1, sc, nI, sI, dI⟩ = semantic_lookup ⟨s2, sc, nI, sI, dI⟩ := by
    funext t
    show (s1 t 4 >>= fun res => pure (res.map Prod.fst))
      = (s2 t 4 >>= fun res => pure (res.map Prod.fst))
    rw [h t]
  have hfuz : fuzzy_lookup ⟨s1, sc, nI, sI, dI⟩ = fuzzy_lookup ⟨s2, sc, nI, sI, dI⟩ := rfl
  constructor
  · unfold _run runBody
    rw [hsem, hfuz]
  · unfold __call__
    rw [hsem, hfuz]

/-- C7 witness: the amended theorem applied to the concrete fan-out-10
engine and the empty engine, which agree at fan-out 4. -/
theorem c7_witness :
    _run stK10 "z" = _run stEmptyFuzz "z"
    ∧ __call__ stK10 "z" = __call__ stEmptyFuzz "z" := by
  exact c7_fanout_k4 stK10.similarity_search_with_score
    stEmptyFuzz.similarity_search_with_score (fun _ _ => 0) ["a"] ["b"] ["c"]
    (fun t => rfl) "z"

/-! Claim C4 (corrected): the single-best low-stock flag compares the
metadata quantity against the metadata `low_stock_threshold` with
default 10 — and the metadata built for the vector store omits
`low_stock_threshold`, so in the semantic path the record's own
threshold is never consulted. -/

/-- C4 counterexample: the catalog row behind `stG` has quantity 15 and
its own threshold 20, so the claim requires "LOW STOCK"; the code
renders "in stock" because `create_product_documents` dropped the
threshold from the metadata and the default 10 was compared instead. -/
theorem c4_counterexample :
    (15 : Int) ≤ 20
    ∧ __call__ stG "gadget"
      = Except.ok "**Gadget**\nSKU `G1` • Qty: **15** (in stock)\nPrice: 5 USD" := by
  exact ⟨by norm_num, rfl⟩

/-- C4 (amended): in single-best mode the answer marks "LOW STOCK"
exactly when the metadata quantity is at most the metadata
`low_stock_threshold` (10 when the key is absent); and every document
built by `create_product_documents` has no `low_stock_threshold`
metadata key, so the semantic path always compares against 10. -/
theorem c4_low_stock_flag (tool : VectorProductStockTool) (q c : String) (m : Dict)
    (sc : ℚ) (n t : Int) (nm sk pr : Val)
    (hsearch : tool.similarity_search_with_score q 4 = Except.ok [(⟨c, m⟩, sc)])
    (hq : dget m "quantity" = some (Val.int n))
    (ht : (dget m "low_stock_threshold").getD (Val.int 10) = Val.int t)
    (hnm : dget m "name" = some nm) (hsk : dget m "sku" = some sk)
    (hpr : dget m "price" = some pr) :
    (__call__ tool q = Except.ok ("**" ++ pyStr nm ++ "**\n"
        ++ "SKU `" ++ pyStr sk ++ "` • Qty: **" ++ toString n ++ "** ("
        ++ (if n ≤ t then "LOW STOCK ⚠️" else "in stock") ++ ")\n"
        ++ "Price: " ++ pyStr pr ++ " "
        ++ pyStr ((dget m "currency").getD (Val.str "USD"))))
    ∧ ∀ (rows : List Row) (d : Document), d ∈ create_product_documents rows →
        dget d.metadata "low_stock_threshold" = none := by
  constructor
  · unfold __call__ semantic_lookup
    rw [hsearch]
    simp only [ebind_ok, epure, List.map_cons, List.map_nil]
    rw [if_neg (show ¬(([⟨c, m⟩] : List Document).isEmpty = true)
      from fun hh => Bool.noConfusion hh)]
    rw [hq, ht, hnm, hsk, hpr]
    by_cases hnt : n ≤ t
    · simp [hnt, pyLe, pyStr, ebind_ok]
    · simp [hnt, pyLe, pyStr, ebind_ok]
  · intro rows d hd
    rw [create_product_documents] at hd
    obtain ⟨a, ha, rfl⟩ := List.mem_map.mp hd
    rfl

/-- C4 witness: the amended flag theorem at quantity 5 / threshold 10
(marked LOW STOCK) and at quantity 15 / threshold 10 (marked in
stock). -/
theorem c4_witness :
    __call__ st5 "pen"
      = Except.ok "**Pen**\nSKU `P1` • Qty: **5** (LOW STOCK ⚠️)\nPrice: 3 USD"
    ∧ __call__ st15 "pen"
      = Except.ok "**Pen**\nSKU `P1` • Qty: **15** (in stock)\nPrice: 3 USD" := by
  constructor
  · exact (c4_low_stock_flag st5 "pen" "" m5 0 5 10 (Val.str "Pen") (Val.str "P1")
      (Val.int 3) rfl rfl rfl rfl rfl rfl).1
  · exact (c4_low_stock_flag st15 "pen" "" m15 0 15 10 (Val.str "Pen") (Val.str "P1")
      (Val.int 3) rfl rfl rfl rfl rfl rfl).1

/-! Claim C9 (confirmed): tie-break of the fuzzy selection. -/

theorem extractOne_ne_none (scorer : String → String → ℚ) (q : String)
    (c : String) (rest : List String) :
    extractOne scorer q (c :: rest) ≠ none := by
  unfold extractOne
  cases extractOne scorer q rest with
  | none => exact fun hh => Option.noConfusion hh
  | some p =>
    obtain ⟨h, s, i⟩ := p
    dsimp only
    by_cases hlt : scorer q c < s
    · rw [if_pos hlt]; exact fun hh => Option.noConfusion hh
    · rw [if_neg hlt]; exact fun hh => Option.noConfusion hh

theorem extractOne_eq_nil (scorer : String → String → ℚ) (q : String) :
    ∀ l : List String, extractOne scorer q l = none → l = []
  | [], _ => rfl
  | c :: rest, h => absurd h (extractOne_ne_none scorer q c rest)

/-- Specification of the modelled rapidfuzz `extractOne`: the returned
triple carries the score of the returned hit, the hit sits at the
returned index, every earlier entry scores strictly less (first
occurrence wins ties), and no entry scores more. -/
theorem extractOne_spec (scorer : String → String → ℚ) (q : String) :
    ∀ (l : List String) (h : String) (s : ℚ) (i : Nat),
      extractOne scorer q l = some (h, s, i) →
      s = scorer q h
      ∧ ∃ hi : i < l.length, l.get ⟨i, hi⟩ = h
        ∧ (∀ (j : Nat) (hj : j < l.length), j < i → scorer q (l.get ⟨j, hj⟩) < s)
        ∧ (∀ (j : Nat) (hj : j < l.length), scorer q (l.get ⟨j, hj⟩) ≤ s) := by
  intro l
  induction l with
  | nil => intro h s i hx; exact absurd hx (fun hh => Option.noConfusion hh)
  | cons c rest ih =>
    intro h s i hx
    unfold extractOne at hx
    cases hr : extractOne scorer q rest with
    | none =>
      rw [hr] at hx
      have hrest : rest = [] := extractOne_eq_nil scorer q rest hr
      subst hrest
      cases hx
      refine ⟨rfl, Nat.succ_pos 0, rfl,
        fun j hj hj0 => absurd hj0 (Nat.not_lt_zero j), fun j hj => ?_⟩
      cases j with
      | zero => exact le_refl _
      | succ j' =>
        have hj1 : j' + 1 < 1 := by simpa using hj
        exact absurd hj1 (by omega)
    | some p =>
      obtain ⟨h', s', i'⟩ := p
      rw [hr] at hx
      obtain ⟨hs', hi', hget', hstrict', hle'⟩ := ih h' s' i' hr
      dsimp only at hx
      by_cases hlt : scorer q c < s'
      · rw [if_pos hlt] at hx
        cases hx
        refine ⟨hs', Nat.succ_lt_succ hi', ?_, ?_, ?_⟩
        · simpa using hget'
        · intro j hj hji
          cases j with
          | zero => simpa using hlt
          | succ j' =>
            have hj' : j' < rest.length := by simpa using hj
            have hx2 := hstrict' j' hj' (Nat.lt_of_succ_lt_succ hji)
            simpa using hx2
        · intro j hj
          cases j with
          | zero => simpa using le_of_lt hlt
          | succ j' =>
            have hj' : j' < rest.length := by simpa using hj
            simpa using hle' j' hj'
      · rw [if_neg hlt] at hx
        cases hx
        have hles : s' ≤ scorer q c := not_lt.mp hlt
        refine ⟨rfl, Nat.succ_pos _, rfl,
          fun j hj hj0 => absurd hj0 (Nat.not_lt_zero j), fun j hj => ?_⟩
        cases j with
        | zero => exact le_refl _
        | succ j' =>
          have hj' : j' < rest.length := by simpa using hj
          have hx2 : scorer q ((c :: rest).get ⟨j' + 1, hj⟩)
              = scorer q (rest.get ⟨j', hj'⟩) := by simp
          rw [hx2]
          exact le_trans (hle' j' hj') hles

/-- One `_check` call when `extractOne` finds a best choice: the running
best is replaced exactly when the new score is strictly greater. -/
theorem checkStep_some (scorer : String → String → ℚ) (q : String)
    (choices : List String) (acc : ℚ × Option (String × Nat))
    (hit : String) (score : ℚ) (idx : Nat)
    (h : extractOne scorer q choices = some (hit, score, idx)) :
    checkStep scorer q acc choices
      = Except.ok (if acc.1 < score then (score, some (hit, idx)) else acc) := by
  unfold checkStep
  rw [h]

/-- C9: when each of the three index lists has a best entry with
positive score, the fuzzy selection returns the name-list entry
whenever its score is at least both others (ties included), the
SKU-list entry whenever it strictly beats the name score and is at
least the description score, and the description-list entry only when
it strictly beats both; within each list the winning index is the
first to attain its list's best score (all earlier entries score
strictly less). -/
theorem c9_tie_break (scorer : String → String → ℚ) (q : String)
    (nIdx sIdx dIdx : List String)
    (nh sh dh : String) (ns ss ds : ℚ) (ni si di : Nat)
    (hN : extractOne scorer q nIdx = some (nh, ns, ni))
    (hS : extractOne scorer q sIdx = some (sh, ss, si))
    (hD : extractOne scorer q dIdx = some (dh, ds, di))
    (hpn : 0 < ns) (hps : 0 < ss) (hpd : 0 < ds) :
    (ss ≤ ns → ds ≤ ns →
      fuzzy_select scorer q nIdx sIdx dIdx = Except.ok (ns, some (nh, ni)))
    ∧ (ns < ss → ds ≤ ss →
      fuzzy_select scorer q nIdx sIdx dIdx = Except.ok (ss, some (sh, si)))
    ∧ (ns < ds → ss < ds →
      fuzzy_select scorer q nIdx sIdx dIdx = Except.ok (ds, some (dh, di)))
    ∧ (∀ (j : Nat) (hj : j < nIdx.length), j < ni → scorer q (nIdx.get ⟨j, hj⟩) < ns)
    ∧ (∀ (j : Nat) (hj : j < sIdx.length), j < si → scorer q (sIdx.get ⟨j, hj⟩) < ss)
    ∧ (∀ (j : Nat) (hj : j < dIdx.length), j < di → scorer q (dIdx.get ⟨j, hj⟩) < ds) := by
  obtain ⟨hsn, hin, hgetn, hstrn, hlen⟩ := extractOne_spec scorer q nIdx nh ns ni hN
  obtain ⟨hss2, his, hgets, hstrs, hles⟩ := extractOne_spec scorer q sIdx sh ss si hS
  obtain ⟨hsd2, hid, hgetd, hstrd, hled⟩ := extractOne_spec scorer q dIdx dh ds di hD
  refine ⟨?_, ?_, ?_, fun j hj hji => hstrn j hj hji,
    fun j hj hji => hstrs j hj hji, fun j hj hji => hstrd j hj hji⟩
  · intro h1 h2
    unfold fuzzy_select
    rw [checkStep_some scorer q nIdx (0, none) nh ns ni hN]
    simp only [ebind_ok]
    rw [if_pos (show ((0 : ℚ), (none : Option (String × Nat))).1 < ns from hpn)]
    rw [checkStep_some scorer q sIdx (ns, some (nh, ni)) sh ss si hS]
    simp only [ebind_ok]
    rw [if_neg (show ¬((ns, some (nh, ni)).1 < ss) from not_lt.mpr h1)]
    rw [checkStep_some scorer q dIdx (ns, some (nh, ni)) dh ds di hD]
    rw [if_neg (show ¬((ns, some (nh, ni)).1 < ds) from not_lt.mpr h2)]
  · intro h1 h2
    unfold fuzzy_select
    rw [checkStep_some scorer q nIdx (0, none) nh ns ni hN]
    simp only [ebind_ok]
    rw [if_pos (show ((0 : ℚ), (none : Option (String × Nat))).1 < ns from hpn)]
    rw [checkStep_some scorer q sIdx (ns, some (nh, ni)) sh ss si hS]
    simp only [ebind_ok]
    rw [if_pos (show ((ns, some (nh, ni)).1 < ss) from h1)]
    rw [checkStep_some scorer q dIdx (ss, some (sh, si)) dh ds di hD]
    rw [if_neg (show ¬((ss, some (sh, si)).1 < ds) from not_lt.mpr h2)]
  · intro h1 h2
    unfold fuzzy_select
    rw [checkStep_some scorer q nIdx (0, none) nh ns ni hN]
    simp only [ebind_ok]
    rw [if_pos (show ((0 : ℚ), (none : Option (String × Nat))).1 < ns from hpn)]
    by_cases hns : ns < ss
    · rw [checkStep_some scorer q sIdx (ns, some (nh, ni)) sh ss si hS]
      simp only [ebind_ok]
      rw [if_pos (show ((ns, some (nh, ni)).1 < ss) from hns)]
      rw [checkStep_some scorer q dIdx (ss, some (sh, si)) dh ds di hD]
      rw [if_pos (show ((ss, some (sh, si)).1 < ds) from h2)]
    · rw [checkStep_some scorer q sIdx (ns, some (nh, ni)) sh ss si hS]
      simp only [ebind_ok]
      rw [if_neg (show ¬((ns, some (nh, ni)).1 < ss) from hns)]
      rw [checkStep_some scorer q dIdx (ns, some (nh, ni)) dh ds di hD]
      rw [if_pos (show ((ns, some (nh, ni)).1 < ds) from h1)]

/-- C9 witness: with the maximum score 80 attained both in the name
list (`aa`, at index 1 after a lower-scoring first entry) and in the
SKU list (`bb`), the selection returns the name-list entry. -/
theorem c9_witness :
    fuzzy_select scr9 "x" ["zz", "aa"] ["bb"] ["cc"]
      = Except.ok (80, some ("aa", 1)) := by
  exact (c9_tie_break scr9 "x" ["zz", "aa"] ["bb"] ["cc"] "aa" "bb" "cc"
    80 80 10 1 0 0 (by decide) (by decide) (by decide)
    (by decide) (by decide) (by decide)).1 (by decide) (by decide)

/-! Claim C10 (corrected): listing-mode formatting is total when the
present fields have their catalog types, but single-best rendering
raises `KeyError` on a missing metadata field. -/

theorem pyAdd_num (a b : Val) (ha : valIsNum a = true) (hb : valIsNum b = true) :
    ∃ w, pyAdd a b = Except.ok w ∧ valIsNum w = true := by
  cases a with
  | str s => exact absurd ha (by simp [valIsNum])
  | int x =>
    cases b with
    | str s => exact absurd hb (by simp [valIsNum])
    | int y => exact ⟨Val.int (x + y), rfl, rfl⟩
    | float y => exact ⟨Val.float ((x : ℚ) + y), rfl, rfl⟩
  | float x =>
    cases b with
    | str s => exact absurd hb (by simp [valIsNum])
    | int y => exact ⟨Val.float (x + (y : ℚ)), rfl, rfl⟩
    | float y => exact ⟨Val.float (x + y), rfl, rfl⟩

theorem foldlM_pyAdd_ok : ∀ (l : List Val) (a : Val), valIsNum a = true →
    (∀ v ∈ l, valIsNum v = true) →
    ∃ w, List.foldlM pyAdd a l = Except.ok w
  | [], a, _, _ => ⟨a, rfl⟩
  | v :: vs, a, ha, hl => by
    obtain ⟨w, hw, hwn⟩ := pyAdd_num a v ha (hl v (List.mem_cons_self v vs))
    obtain ⟨w2, hw2⟩ :=
      foldlM_pyAdd_ok vs w hwn (fun u hu => hl u (List.mem_cons_of_mem v hu))
    refine ⟨w2, ?_⟩
    rw [show List.foldlM pyAdd a (v :: vs)
        = pyAdd a v >>= fun x => List.foldlM pyAdd x vs from rfl]
    rw [hw, ebind_ok, hw2]

theorem priceLine_ok (p : Dict)
    (h : (match dget p "price" with
          | some (Val.str _) => false
          | _ => true) = true) :
    ∃ a, priceLine p = Except.ok a := by
  unfold priceLine
  cases hp : dget p "price" with
  | none => exact ⟨"", rfl⟩
  | some v =>
    rw [hp] at h
    cases v with
    | str s => exact absurd h (by simp)
    | int n =>
      by_cases ht : pyTruthy ((some (Val.int n)).getD (Val.int 0)) = true
      · rw [if_pos ht]; exact ⟨_, rfl⟩
      · rw [if_neg ht]; exact ⟨_, rfl⟩
    | float x =>
      by_cases ht : pyTruthy ((some (Val.float x)).getD (Val.int 0)) = true
      · rw [if_pos ht]; exact ⟨_, rfl⟩
      · rw [if_neg ht]; exact ⟨_, rfl⟩

theorem descLine_ok (p : Dict)
    (h : (match dget p "short_description" with
          | some (Val.int _) => false
          | some (Val.float _) => false
          | _ => true) = true) :
    ∃ a, descLine p = Except.ok a := by
  unfold descLine
  cases hp : dget p "short_description" with
  | none => exact ⟨"", rfl⟩
  | some v =>
    rw [hp] at h
    cases v with
    | int n => exact absurd h (by simp)
    | float x => exact absurd h (by simp)
    | str s =>
      by_cases ht : pyTruthy ((some (Val.str s)).getD (Val.str "")) = true
      · rw [if_pos ht]; exact ⟨_, rfl⟩
      · rw [if_neg ht]; exact ⟨_, rfl⟩

theorem renderProduct_ok_of_typed (p : Dict) (h : typedFields p = true) :
    ∃ s, renderProduct p = Except.ok s := by
  have h3 := h
  unfold typedFields at h3
  rw [Bool.and_eq_true, Bool.and_eq_true] at h3
  obtain ⟨⟨hA, hB⟩, _⟩ := h3
  obtain ⟨a, ha⟩ := priceLine_ok p hA
  obtain ⟨b, hb⟩ := descLine_ok p hB
  refine ⟨infoLines p ++ a ++ supplierLine p ++ leadLine p ++ b ++ sepLine, ?_⟩
  unfold renderProduct
  rw [ha]
  simp only [ebind_ok]
  rw [hb]
  simp only [ebind_ok]

theorem renderAll_ok : ∀ (l : List Dict),
    (∀ p ∈ l, ∃ s, renderProduct p = Except.ok s) →
    ∃ ss, renderAll l = Except.ok ss
  | [], _ => ⟨[], rfl⟩
  | p :: ps, h => by
    obtain ⟨s, hs⟩ := h p (List.mem_cons_self p ps)
    obtain ⟨ss, hss⟩ := renderAll_ok ps (fun u hu => h u (List.mem_cons_of_mem p hu))
    refine ⟨s :: ss, ?_⟩
    unfold renderAll
    rw [hs]
    simp only [ebind_ok]
    rw [hss]
    rfl

/-- C10 counterexample: in single-best mode a best document whose
metadata lacks the `quantity` key makes the render raise `KeyError`
instead of treating the field as absent and returning a string. -/
theorem c10_counterexample :
    __call__ stEmptyMeta "pen" = Except.error "KeyError: quantity" := rfl

/-- C10 (amended): listing-mode formatting never raises for record
lists whose present price / short-description / quantity fields have
the catalog's types (missing fields are replaced by defaults); but
single-best rendering reads metadata by direct subscript, so a best
document without a `quantity` key raises `KeyError`. -/
theorem c10_formatting_amended :
    (∀ (ps : List Dict) (q : String), (∀ p ∈ ps, typedFields p = true) →
      ∃ s, format_stock_results ps q = Except.ok s)
    ∧ (∀ (tool : VectorProductStockTool) (q c : String) (m : Dict) (sc : ℚ),
        tool.similarity_search_with_score q 4 = Except.ok [(⟨c, m⟩, sc)] →
        dget m "quantity" = none →
        __call__ tool q = Except.error "KeyError: quantity") := by
  constructor
  · intro ps q hps
    cases ps with
    | nil => exact ⟨_, rfl⟩
    | cons p ps' =>
      have hsec : ∀ u ∈ p :: ps', ∃ s, renderProduct u = Except.ok s :=
        fun u hu => renderProduct_ok_of_typed u (hps u hu)
      obtain ⟨ss, hss⟩ := renderAll_ok (p :: ps') hsec
      unfold format_stock_results
      rw [if_neg (show ¬(((p :: ps') : List Dict).isEmpty = true)
        from fun hh => Bool.noConfusion hh)]
      rw [hss]
      simp only [ebind_ok]
      by_cases hl : 1 < (p :: ps').length
      · rw [if_pos hl]
        have hqn : ∀ v ∈ (p :: ps').map (fun u => (dget u "quantity").getD (Val.int 0)),
            valIsNum v = true := by
          intro v hv
          obtain ⟨u, hu, rfl⟩ := List.mem_map.mp hv
          have hu2 := hps u hu
          unfold typedFields at hu2
          rw [Bool.and_eq_true, Bool.and_eq_true] at hu2
          obtain ⟨⟨_, _⟩, hC⟩ := hu2
          cases hqv : dget u "quantity" with
          | none => rfl
          | some v2 =>
            rw [hqv] at hC
            cases v2 with
            | str s2 => exact absurd hC (by simp)
            | int n2 => rfl
            | float q2 => rfl
        obtain ⟨w, hw⟩ := foldlM_pyAdd_ok
          ((p :: ps').map (fun u => (dget u "quantity").getD (Val.int 0)))
          (Val.int 0) rfl hqn
        unfold summary_block pySum
        rw [hw]
        simp only [ebind_ok, epure]
        exact ⟨_, rfl⟩
      · rw [if_neg hl]
        exact ⟨_, rfl⟩
  · intro tool q c m sc hsearch hq
    unfold __call__ semantic_lookup
    rw [hsearch]
    simp only [ebind_ok, epure, List.map_cons, List.map_nil]
    rw [if_neg (show ¬(([⟨c, m⟩] : List Document).isEmpty = true)
      from fun hh => Bool.noConfusion hh)]
    rw [hq]
    rfl

/-- C10 witness: the amended theorem at a one-field record (listing
formatting succeeds) and at the empty-metadata tool (single-best raises
`KeyError`). -/
theorem c10_witness :
    (∃ s, format_stock_results [[("name", Val.str "X")]] "q" = Except.ok s)
    ∧ __call__ stEmptyMeta "x" = Except.error "KeyError: quantity" := by
  constructor
  · exact c10_formatting_amended.1 [[("name", Val.str "X")]] "q"
      (by intro p hp; simp only [List.mem_singleton] at hp; subst hp; rfl)
  · exact c10_formatting_amended.2 stEmptyMeta "x" "" [] 0 rfl rfl

/-! Claim C5 (confirmed): deduplication by exact sku, first occurrence
wins, original order preserved. -/

theorem extractAux_sublist : ∀ (docs : List Document) (seen : List (Option Val)),
    (extractAux docs seen).Sublist (docs.map parsedOf)
  | [], _ => List.Sublist.slnil
  | d :: rest, seen => by
    unfold extractAux
    dsimp only
    simp only [List.map_cons]
    by_cases hcond : parsedOf d ≠ [] ∧ dget (parsedOf d) "sku" ∉ seen
    · rw [if_pos hcond]
      exact List.Sublist.cons₂ _ (extractAux_sublist rest _)
    · rw [if_neg hcond]
      exact List.Sublist.cons _ (extractAux_sublist rest seen)

theorem extractAux_seen : ∀ (docs : List Document) (seen : List (Option Val))
    (v : Option Val), v ∈ seen →
    (extractAux docs seen).filter (fun p => decide (dget p "sku" = v)) = []
  | [], _, _, _ => rfl
  | d :: rest, seen, v, hv => by
    unfold extractAux
    dsimp only
    by_cases hcond : parsedOf d ≠ [] ∧ dget (parsedOf d) "sku" ∉ seen
    · rw [if_pos hcond]
      rw [List.filter_cons_of_neg]
      · exact extractAux_seen rest _ v (List.mem_cons_of_mem _ hv)
      · simp only [decide_eq_true_eq]
        intro heq
        exact hcond.2 (heq ▸ hv)
    · rw [if_neg hcond]
      exact extractAux_seen rest seen v hv

theorem extractAux_filter_len : ∀ (docs : List Document)
    (seen : List (Option Val)) (v : Option Val),
    ((extractAux docs seen).filter (fun p => decide (dget p "sku" = v))).length ≤ 1
  | [], _, _ => by simp [extractAux]
  | d :: rest, seen, v => by
    unfold extractAux
    dsimp only
    by_cases hcond : parsedOf d ≠ [] ∧ dget (parsedOf d) "sku" ∉ seen
    · rw [if_pos hcond]
      by_cases heq : dget (parsedOf d) "sku" = v
      · rw [List.filter_cons_of_pos (by exact decide_eq_true heq)]
        have hv' : v ∈ dget (parsedOf d) "sku" :: seen := by
          rw [← heq]; exact List.mem_cons_self _ _
        rw [extractAux_seen rest _ v hv']
        exact le_refl 1
      · rw [List.filter_cons_of_neg]
        · exact extractAux_filter_len rest _ v
        · simp only [decide_eq_true_eq]
          exact heq
    · rw [if_neg hcond]
      exact extractAux_filter_len rest seen v

theorem extractAux_find : ∀ (docs : List Document) (seen : List (Option Val))
    (v : Option Val), v ∉ seen →
    (extractAux docs seen).find? (fun p => decide (dget p "sku" = v))
      = ((docs.map parsedOf).filter (fun p => decide (p ≠ []))).find?
          (fun p => decide (dget p "sku" = v))
  | [], _, _, _ => rfl
  | d :: rest, seen, v, hv => by
    unfold extractAux
    dsimp only
    simp only [List.map_cons]
    by_cases hpd : parsedOf d = []
    · rw [if_neg (fun hc => hc.1 hpd)]
      rw [List.filter_cons_of_neg (by simp [hpd])]
      exact extractAux_find rest seen v hv
    · rw [List.filter_cons_of_pos (by simp [hpd])]
      by_cases hseen : dget (parsedOf d) "sku" ∈ seen
      · rw [if_neg (fun hc => hc.2 hseen)]
        rw [List.find?_cons_of_neg]
        · exact extractAux_find rest seen v hv
        · simp only [decide_eq_true_eq]
          intro heq
          exact hv (heq ▸ hseen)
      · rw [if_pos ⟨hpd, hseen⟩]
        by_cases heq : dget (parsedOf d) "sku" = v
        · rw [List.find?_cons_of_pos _ (by exact decide_eq_true heq),
            List.find?_cons_of_pos _ (by exact decide_eq_true heq)]
        · rw [List.find?_cons_of_neg _ (by simpa using heq),
            List.find?_cons_of_neg _ (by simpa using heq)]
          refine extractAux_find rest _ v ?_
          intro hmem
          rcases List.mem_cons.mp hmem with h1 | h2
          · exact heq h1.symm
          · exact hv h2

/-- C5: deduplication of the candidate list is by exact `sku` value —
the kept entries form a sublist of the parsed candidates (original rank
order preserved), at most one entry survives per `sku` value, and the
entry found for a `sku` value is exactly the first non-empty parsed
candidate carrying that value (so it sits at the rank of its first
occurrence). -/
theorem c5_dedup_by_sku (docs : List Document) :
    (extract_product_info docs).Sublist (docs.map parsedOf)
    ∧ (∀ v : Option Val,
        ((extract_product_info docs).filter
          (fun p => decide (dget p "sku" = v))).length ≤ 1)
    ∧ (∀ v : Option Val,
        (extract_product_info docs).find? (fun p => decide (dget p "sku" = v))
          = ((docs.map parsedOf).filter (fun p => decide (p ≠ []))).find?
              (fun p => decide (dget p "sku" = v))) :=
  ⟨extractAux_sublist docs [],
   fun v => extractAux_filter_len docs [] v,
   fun v => extractAux_find docs [] v (fun hh => (List.not_mem_nil v) hh)⟩

/-! Claim C8 (confirmed): the listing summary block. -/

theorem foldlM_pyAdd_int : ∀ (l : List Val) (a : Int),
    (∀ v ∈ l, ∃ n : Int, v = Val.int n) →
    List.foldlM pyAdd (Val.int a) l
      = Except.ok (Val.int (l.foldl
          (fun b v => b + (match v with | Val.int n => n | _ => 0)) a))
  | [], _, _ => rfl
  | v :: vs, a, h => by
    obtain ⟨n, rfl⟩ := h v (List.mem_cons_self v vs)
    rw [show List.foldlM pyAdd (Val.int a) (Val.int n :: vs)
        = pyAdd (Val.int a) (Val.int n) >>= fun x => List.foldlM pyAdd x vs from rfl]
    rw [show pyAdd (Val.int a) (Val.int n) = Except.ok (Val.int (a + n)) from rfl,
      ebind_ok]
    rw [foldlM_pyAdd_int vs (a + n) (fun u hu => h u (List.mem_cons_of_mem _ hu))]
    rfl

/-- The summary block with every quantity an integer: the totals are
the integer sum and the two status counts. -/
theorem summary_block_int (ps : List Dict)
    (h : ∀ p ∈ ps, ∃ n : Int, (dget p "quantity").getD (Val.int 0) = Val.int n) :
    summary_block ps = Except.ok ("SUMMARY:\n"
      ++ "Total Products Found: " ++ toString ps.length ++ "\n"
      ++ "Total Stock: " ++ toString (qtySum ps) ++ " units\n"
      ++ "Low Stock Items: " ++ toString (lowCount ps) ++ "\n"
      ++ "Out of Stock Items: " ++ toString (outCount ps) ++ "\n") := by
  unfold summary_block pySum
  rw [foldlM_pyAdd_int (ps.map (fun p => (dget p "quantity").getD (Val.int 0))) 0
    (fun v hv => by obtain ⟨u, hu, rfl⟩ := List.mem_map.mp hv; exact h u hu)]
  simp only [ebind_ok]
  rw [List.foldl_map]
  rfl

/-- C8: when more than one product is listed, the formatted output ends
with a summary block reporting the product count, the integer sum of
all quantities, and the counts of entries whose stock_status is
`low_stock` and `out_of_stock`; for a single product the output is the
header plus that product's block, with no summary appended. -/
theorem c8_listing_summary :
    (∀ (ps : List Dict) (q : String), 1 < ps.length →
      (∀ p ∈ ps, ∃ s, renderProduct p = Except.ok s) →
      (∀ p ∈ ps, ∃ n : Int, (dget p "quantity").getD (Val.int 0) = Val.int n) →
      ∃ body, format_stock_results ps q = Except.ok (body
        ++ ("SUMMARY:\n"
          ++ "Total Products Found: " ++ toString ps.length ++ "\n"
          ++ "Total Stock: " ++ toString (qtySum ps) ++ " units\n"
          ++ "Low Stock Items: " ++ toString (lowCount ps) ++ "\n"
          ++ "Out of Stock Items: " ++ toString (outCount ps) ++ "\n")))
    ∧ (∀ (p : Dict) (q : String) (s : String), renderProduct p = Except.ok s →
        format_stock_results [p] q = Except.ok (listingHeader q ++ s)) := by
  constructor
  · intro ps q hlen hsec hqty
    obtain ⟨ss, hss⟩ := renderAll_ok ps hsec
    have hne : ¬(ps.isEmpty = true) := by
      cases ps with
      | nil => exact absurd hlen (by norm_num)
      | cons a as => exact fun hh => Bool.noConfusion hh
    refine ⟨ss.foldl (fun a s => a ++ s) (listingHeader q), ?_⟩
    unfold format_stock_results
    rw [if_neg hne, hss]
    simp only [ebind_ok]
    rw [if_pos hlen]
    rw [summary_block_int ps hqty]
    simp only [ebind_ok]
    rfl
  · intro p q s hs
    have h1 : renderAll [p] = Except.ok [s] := by
      show (do
        let s2 ← renderProduct p
        let rest ← renderAll ([] : List Dict)
        pure (s2 :: rest) : Except String (List String)) = Except.ok [s]
      rw [hs]
      rfl
    unfold format_stock_results
    rw [if_neg (show ¬(([p] : List Dict).isEmpty = true)
      from fun hh => Bool.noConfusion hh)]
    rw [h1]
    simp only [ebind_ok]
    rw [if_neg (show ¬(1 < ([p] : List Dict).length) from by norm_num)]
    rfl

/-- C8 witness: three records with quantities 5, 0, 20 and statuses
low_stock, out_of_stock, in_stock produce a summary reporting total 3,
total stock 25, one low-stock item and one out-of-stock item. -/
theorem c8_witness :
    ∃ body, format_stock_results c8ps "pens" = Except.ok (body
      ++ ("SUMMARY:\n"
        ++ "Total Products Found: " ++ toString (3 : Nat) ++ "\n"
        ++ "Total Stock: " ++ toString (25 : Int) ++ " units\n"
        ++ "Low Stock Items: " ++ toString (1 : Nat) ++ "\n"
        ++ "Out of Stock Items: " ++ toString (1 : Nat) ++ "\n")) := by
  have h := c8_listing_summary.1 c8ps "pens" (by norm_num [c8ps])
    (by
      intro p hp
      simp only [c8ps, List.mem_cons, List.not_mem_nil, or_false] at hp
      rcases hp with rfl | rfl | rfl
      · exact ⟨_, rfl⟩
      · exact ⟨_, rfl⟩
      · exact ⟨_, rfl⟩)
    (by
      intro p hp
      simp only [c8ps, List.mem_cons, List.not_mem_nil, or_false] at hp
      rcases hp with rfl | rfl | rfl
      · exact ⟨5, rfl⟩
      · exact ⟨0, rfl⟩
      · exact ⟨20, rfl⟩)
  obtain ⟨body, hb⟩ := h
  refine ⟨body, ?_⟩
  rw [hb]
  rfl
